import Mathlib

/-!
Shallow embedding of the ZKMarketplace escrow contracts
(`contracts/ZKMarketplace.sol`, reputation variant, and
`contracts/DisputeResolution.sol`) and verification of the specification's
claims about them.

Addresses are modelled as natural numbers (0 is the zero address), ether
values as natural numbers (wei), timestamps as natural numbers.  Every
external function of the contracts becomes a Lean function from the
contract state and the call arguments to `Except String State`: a
Solidity `require` failure (or a failed `transfer`) becomes `.error msg`,
leaving the caller's state unchanged, exactly as a reverted transaction
leaves storage unchanged.  Each contract state additionally carries the
contract's ether `balance` (`address(this).balance`) and a ledger
`paidOut` recording the cumulative ether transferred out to each address,
instrumenting the `transfer` calls of the source.
-/

namespace ZKM

/-- Order status enum of `ZKMarketplace.sol` (declaration order matters:
`Created` is the zero value a Solidity mapping defaults to). -/
inductive OrderStatus where
  | Created
  | Funded
  | Confirmed
  | Disputed
  | Resolved
  | Cancelled
deriving DecidableEq

/-- The `Order` struct of `ZKMarketplace.sol`. -/
structure Order where
  id : Nat
  seller : Nat
  buyer : Nat
  amount : Nat
  description : String
  status : OrderStatus
  createdAt : Nat
  fundedAt : Nat
  confirmedAt : Nat
deriving DecidableEq

/-- The all-zero `Order` a Solidity mapping returns for a key that was
never written. -/
def defaultOrder : Order :=
  { id := 0, seller := 0, buyer := 0, amount := 0, description := "",
    status := .Created, createdAt := 0, fundedAt := 0, confirmedAt := 0 }

/-- The `UserReputation` struct of `ZKMarketplace.sol`. -/
structure UserReputation where
  score : Int
  successfulOrders : Nat
  failedOrders : Nat
  totalOrders : Nat
  isVerified : Bool
deriving DecidableEq

/-- The all-zero `UserReputation` mapping default. -/
def defaultRep : UserReputation :=
  { score := 0, successfulOrders := 0, failedOrders := 0, totalOrders := 0,
    isVerified := false }

/-- Storage of the `ZKMarketplace` contract, together with its ether
balance and the cumulative outbound-transfer ledger. -/
structure MState where
  nextOrderId : Nat
  platformFeePercent : Nat
  feeRecipient : Nat
  owner : Nat
  orders : Nat → Order
  reputations : Nat → UserReputation
  balance : Nat
  paidOut : Nat → Nat

/-- `MINIMUM_SELLER_REPUTATION` constant. -/
def MINIMUM_SELLER_REPUTATION : Int := 0

/-- `REPUTATION_PER_SUCCESS` constant. -/
def REPUTATION_PER_SUCCESS : Int := 10

/-- `REPUTATION_PER_FAILURE` constant. -/
def REPUTATION_PER_FAILURE : Int := -15

/-- `INITIAL_REPUTATION` constant. -/
def INITIAL_REPUTATION : Int := 50

/-- The `ZKMarketplace` constructor: `deployer` is `msg.sender`. -/
def mkMarketplace (deployer feeRecipient0 : Nat) : Except String MState :=
  if feeRecipient0 = 0 then .error "Invalid fee recipient" else
  .ok { nextOrderId := 0,
        platformFeePercent := 250,
        feeRecipient := feeRecipient0,
        owner := deployer,
        orders := fun _ => defaultOrder,
        reputations := fun a =>
          if a = deployer then
            { defaultRep with score := 100, isVerified := true }
          else defaultRep,
        balance := 0,
        paidOut := fun _ => 0 }

/-- The clamping applied by `_updateReputation`: add the change, then cap
the result between -100 and 1000. -/
def updateScore (score change : Int) : Int :=
  let x := score + change
  if x < -100 then -100 else if 1000 < x then 1000 else x

/-- Replace one user's reputation record. -/
def setRep (s : MState) (user : Nat) (r : UserReputation) : MState :=
  { s with reputations := fun a => if a = user then r else s.reputations a }

/-- `_updateReputation(user, change, reason)`: the sole score-changing
routine; the reason string only feeds the emitted event. -/
def updateReputationState (s : MState) (user : Nat) (change : Int) : MState :=
  setRep s user
    { s.reputations user with score := updateScore (s.reputations user).score change }

/-- A Solidity `payable(to).transfer(x)` out of the marketplace: reverts
when the contract balance is insufficient. -/
def transferM (s : MState) (recipient x : Nat) : Except String MState :=
  if s.balance < x then .error "transfer failed" else
  .ok { s with balance := s.balance - x,
               paidOut := fun a =>
                 if a = recipient then s.paidOut a + x else s.paidOut a }

/-- `createOrder(description)` with `msg.sender = sender` and
`msg.value = value`.  The `onlyTrustedSeller` modifier runs first: a
caller with `totalOrders == 0` has their score overwritten with
`INITIAL_REPUTATION` before the eligibility check. -/
def createOrder (s : MState) (sender value : Nat) (description : String)
    (ts : Nat) : Except String MState :=
  let s1 := if (s.reputations sender).totalOrders = 0 then
      setRep s sender { s.reputations sender with score := INITIAL_REPUTATION }
    else s
  if (s1.reputations sender).score < MINIMUM_SELLER_REPUTATION then
    .error "Insufficient reputation to sell" else
  if value = 0 then .error "Amount must be greater than 0" else
  if description = "" then .error "Description cannot be empty" else
  .ok { s1 with nextOrderId := s1.nextOrderId + 1,
                orders := fun i =>
                  if i = s1.nextOrderId then
                    { id := s1.nextOrderId, seller := sender, buyer := 0,
                      amount := value, description := description,
                      status := .Created, createdAt := ts, fundedAt := 0,
                      confirmedAt := 0 }
                  else s1.orders i,
                balance := s1.balance + value }

/-- `fundOrder(orderId)` with `msg.sender = sender`, `msg.value = value`. -/
def fundOrder (s : MState) (sender value orderId ts : Nat) :
    Except String MState :=
  let order := s.orders orderId
  if order.status ≠ .Created then .error "Order not in correct status" else
  if value ≠ order.amount then .error "Incorrect funding amount" else
  if sender = order.seller then .error "Seller cannot fund their own order" else
  let s1 := if (s.reputations sender).totalOrders = 0 then
      setRep s sender { s.reputations sender with score := INITIAL_REPUTATION }
    else s
  .ok { s1 with orders := fun i =>
                  if i = orderId then
                    { order with buyer := sender, status := .Funded, fundedAt := ts }
                  else s1.orders i,
                balance := s1.balance + value }

/-- Bump one user's reputation record with a record transformer
(used for the counter increments in `confirmReceipt` and
`penalizeReputation`). -/
def bumpRep (s : MState) (user : Nat) (f : UserReputation → UserReputation) : MState :=
  setRep s user (f (s.reputations user))

/-- `confirmReceipt(orderId)` with `msg.sender = sender`. -/
def confirmReceipt (s : MState) (sender orderId ts : Nat) :
    Except String MState :=
  let order := s.orders orderId
  if order.status ≠ .Funded then .error "Order not funded" else
  if sender ≠ order.buyer then .error "Only buyer can confirm receipt" else
  let platformFee := order.amount * s.platformFeePercent / 10000
  let sellerAmount := order.amount - platformFee
  let s1 := { s with orders := fun i =>
                       if i = orderId then
                         { order with status := .Confirmed, confirmedAt := ts }
                       else s.orders i }
  let s2 := updateReputationState s1 order.seller REPUTATION_PER_SUCCESS
  let s3 := updateReputationState s2 order.buyer (REPUTATION_PER_SUCCESS / 2)
  let s4 := bumpRep s3 order.seller
      (fun r => { r with successfulOrders := r.successfulOrders + 1 })
  let s5 := bumpRep s4 order.seller
      (fun r => { r with totalOrders := r.totalOrders + 1 })
  let s6 := bumpRep s5 order.buyer
      (fun r => { r with totalOrders := r.totalOrders + 1 })
  (transferM s6 order.seller sellerAmount).bind fun s7 =>
    transferM s7 s.feeRecipient platformFee

/-- `cancelOrder(orderId)` with `msg.sender = sender`. -/
def cancelOrder (s : MState) (sender orderId : Nat) : Except String MState :=
  let order := s.orders orderId
  if sender ≠ order.seller then .error "Only seller can cancel" else
  if order.status ≠ .Created then .error "Can only cancel unfunded orders" else
  let s1 := { s with orders := fun i =>
      if i = orderId then { order with status := .Cancelled } else s.orders i }
  transferM s1 order.seller order.amount

/-- `penalizeReputation(user, penalty, reason)` (owner only). -/
def penalizeReputation (s : MState) (sender user : Nat) (penalty : Int)
    (_reason : String) : Except String MState :=
  if sender ≠ s.owner then .error "Not the owner" else
  if penalty ≤ 0 then .error "Penalty must be positive" else
  let s1 := updateReputationState s user (-penalty)
  .ok (bumpRep s1 user (fun r => { r with failedOrders := r.failedOrders + 1 }))

/-- `verifyUser(user)` (owner only). -/
def verifyUser (s : MState) (sender user : Nat) : Except String MState :=
  if sender ≠ s.owner then .error "Not the owner" else
  if (s.reputations user).score < 50 then
    .error "Reputation too low for verification" else
  .ok (bumpRep s user (fun r => { r with isVerified := true }))

/-- `revokeVerification(user)` (owner only). -/
def revokeVerification (s : MState) (sender user : Nat) : Except String MState :=
  if sender ≠ s.owner then .error "Not the owner" else
  .ok (bumpRep s user (fun r => { r with isVerified := false }))

/-- `setPlatformFee(newFeePercent)` (owner only, capped at 1000 = 10%). -/
def setPlatformFee (s : MState) (sender newFeePercent : Nat) :
    Except String MState :=
  if sender ≠ s.owner then .error "Not the owner" else
  if 1000 < newFeePercent then .error "Fee cannot exceed 10%" else
  .ok { s with platformFeePercent := newFeePercent }

/-- `setFeeRecipient(newRecipient)` (owner only). -/
def setFeeRecipient (s : MState) (sender newRecipient : Nat) :
    Except String MState :=
  if sender ≠ s.owner then .error "Not the owner" else
  if newRecipient = 0 then .error "Invalid recipient address" else
  .ok { s with feeRecipient := newRecipient }

/-- `emergencyWithdraw()` (owner only): drains the whole balance. -/
def emergencyWithdraw (s : MState) (sender : Nat) : Except String MState :=
  if sender ≠ s.owner then .error "Not the owner" else
  transferM s s.owner s.balance

/-- Dispute status enum of `DisputeResolution.sol` (`Open` is the zero
value a Solidity mapping defaults to). -/
inductive DisputeStatus where
  | Open
  | UnderReview
  | Resolved
  | Cancelled
deriving DecidableEq

/-- The `Winner` enum of `DisputeResolution.sol`. -/
inductive Winner where
  | None
  | Buyer
  | Seller
deriving DecidableEq

/-- The `Dispute` struct of `DisputeResolution.sol`. -/
structure Dispute where
  orderId : Nat
  disputer : Nat
  reason : String
  evidenceHash : String
  status : DisputeStatus
  winner : Winner
  resolution : String
  createdAt : Nat
  resolvedAt : Nat
  disputeFee : Nat
deriving DecidableEq

/-- The all-zero `Dispute` mapping default. -/
def defaultDispute : Dispute :=
  { orderId := 0, disputer := 0, reason := "", evidenceHash := "",
    status := .Open, winner := .None, resolution := "", createdAt := 0,
    resolvedAt := 0, disputeFee := 0 }

/-- The `Evidence` struct of `DisputeResolution.sol`. -/
structure Evidence where
  submitter : Nat
  evidenceHash : String
  description : String
  timestamp : Nat
deriving DecidableEq

/-- Storage of the `DisputeResolution` contract, with its ether balance
and cumulative outbound-transfer ledger. -/
structure DState where
  marketplace : Nat
  owner : Nat
  mainArbitrator : Nat
  disputeFee : Nat
  nextDisputeId : Nat
  disputes : Nat → Dispute
  orderToDispute : Nat → Nat
  disputeEvidence : Nat → List Evidence
  authorizedArbitrators : Nat → Bool
  arbitratorResolutionCount : Nat → Nat
  balance : Nat
  paidOut : Nat → Nat

/-- `0.01 ether` in wei, the initial `disputeFee`. -/
def initialDisputeFee : Nat := 10000000000000000

/-- The `DisputeResolution` constructor: `deployer` is `msg.sender`. -/
def mkDisputeResolution (deployer marketplaceAddr mainArb : Nat) :
    Except String DState :=
  if marketplaceAddr = 0 then .error "Invalid marketplace address" else
  if mainArb = 0 then .error "Invalid arbitrator address" else
  .ok { marketplace := marketplaceAddr,
        owner := deployer,
        mainArbitrator := mainArb,
        disputeFee := initialDisputeFee,
        nextDisputeId := 0,
        disputes := fun _ => defaultDispute,
        orderToDispute := fun _ => 0,
        disputeEvidence := fun _ => [],
        authorizedArbitrators := fun a => a = mainArb,
        arbitratorResolutionCount := fun _ => 0,
        balance := 0,
        paidOut := fun _ => 0 }

/-- The `onlyArbitrator` modifier condition. -/
def isArbitrator (d : DState) (a : Nat) : Prop :=
  d.authorizedArbitrators a = true ∨ a = d.mainArbitrator

instance (d : DState) (a : Nat) : Decidable (isArbitrator d a) := by
  unfold isArbitrator; infer_instance

/-- A Solidity `payable(to).transfer(x)` out of the dispute contract. -/
def transferD (d : DState) (recipient x : Nat) : Except String DState :=
  if d.balance < x then .error "transfer failed" else
  .ok { d with balance := d.balance - x,
               paidOut := fun a =>
                 if a = recipient then d.paidOut a + x else d.paidOut a }

/-- `raiseDispute(orderId, reason, evidenceHash)` with
`msg.sender = sender`, `msg.value = value`.  The dispute contract only
reads the marketplace through the `IZKMarketplace.orders` view, so the
marketplace state `m` is consulted but never modified. -/
def raiseDispute (d : DState) (m : MState) (sender value orderId : Nat)
    (reason evidenceHash : String) (ts : Nat) : Except String DState :=
  if value < d.disputeFee then .error "Insufficient dispute fee" else
  if reason = "" then .error "Reason cannot be empty" else
  if evidenceHash = "" then .error "Evidence hash required" else
  let order := m.orders orderId
  if order.status ≠ .Funded then .error "Order must be in Funded status" else
  if sender ≠ order.seller ∧ sender ≠ order.buyer then
    .error "Only order participants can raise disputes" else
  if d.orderToDispute orderId ≠ 0 ∧
     (d.disputes (d.orderToDispute orderId)).status ≠ .Cancelled then
    .error "Dispute already exists for this order" else
  if order.amount = 0 then .error "Order has no value" else
  let disputeId := d.nextDisputeId
  .ok { d with
        nextDisputeId := disputeId + 1,
        disputes := fun i =>
          if i = disputeId then
            { orderId := orderId, disputer := sender, reason := reason,
              evidenceHash := evidenceHash, status := .Open, winner := .None,
              resolution := "", createdAt := ts, resolvedAt := 0,
              disputeFee := value }
          else d.disputes i,
        orderToDispute := fun o =>
          if o = orderId then disputeId else d.orderToDispute o,
        disputeEvidence := fun i =>
          if i = disputeId then
            d.disputeEvidence i ++
              [{ submitter := sender, evidenceHash := evidenceHash,
                 description := reason, timestamp := ts }]
          else d.disputeEvidence i,
        balance := d.balance + value }

/-- `submitEvidence(disputeId, evidenceHash, description)` with
`msg.sender = sender`. -/
def submitEvidence (d : DState) (m : MState) (sender disputeId : Nat)
    (evidenceHash description : String) (ts : Nat) : Except String DState :=
  if ¬ disputeId < d.nextDisputeId then .error "Dispute does not exist" else
  let dispute := d.disputes disputeId
  if dispute.status ≠ .Open ∧ dispute.status ≠ .UnderReview then
    .error "Cannot submit evidence for closed dispute" else
  let order := m.orders dispute.orderId
  if sender ≠ order.seller ∧ sender ≠ order.buyer then
    .error "Only order participants can submit evidence" else
  if evidenceHash = "" then .error "Evidence hash required" else
  .ok { d with disputeEvidence := fun i =>
                 if i = disputeId then
                   d.disputeEvidence i ++
                     [{ submitter := sender, evidenceHash := evidenceHash,
                        description := description, timestamp := ts }]
                 else d.disputeEvidence i }

/-- `resolveDispute(disputeId, _winner, resolution)` with
`msg.sender = sender` (arbitrator only).  Pays `order.amount` to the
winner's address and refunds the stored dispute fee to the disputer, both
out of the dispute contract's own balance. -/
def resolveDispute (d : DState) (m : MState) (sender disputeId : Nat)
    (w : Winner) (resolution : String) (ts : Nat) : Except String DState :=
  if ¬ isArbitrator d sender then .error "Not an authorized arbitrator" else
  if ¬ disputeId < d.nextDisputeId then .error "Dispute does not exist" else
  if w = .None then .error "Must select a winner" else
  if resolution = "" then .error "Resolution explanation required" else
  let dispute := d.disputes disputeId
  if dispute.status = .Resolved then .error "Dispute already resolved" else
  let order := m.orders dispute.orderId
  let d1 := { d with disputes := fun i =>
                       if i = disputeId then
                         { dispute with status := .Resolved, winner := w,
                                        resolution := resolution, resolvedAt := ts }
                       else d.disputes i }
  let winnerAddress := if w = .Buyer then order.buyer else order.seller
  (transferD d1 winnerAddress order.amount).bind fun d2 =>
    (if 0 < dispute.disputeFee then transferD d2 dispute.disputer dispute.disputeFee
     else .ok d2).bind fun d3 =>
      .ok { d3 with arbitratorResolutionCount := fun a =>
                      if a = sender then d3.arbitratorResolutionCount a + 1
                      else d3.arbitratorResolutionCount a }

/-- `updateDisputeStatus(disputeId, newStatus)` with
`msg.sender = sender` (arbitrator only). -/
def updateDisputeStatus (d : DState) (sender disputeId : Nat)
    (newStatus : DisputeStatus) : Except String DState :=
  if ¬ isArbitrator d sender then .error "Not an authorized arbitrator" else
  if ¬ disputeId < d.nextDisputeId then .error "Dispute does not exist" else
  if (d.disputes disputeId).status = .Resolved then
    .error "Cannot change resolved dispute" else
  .ok { d with disputes := fun i =>
                 if i = disputeId then
                   { d.disputes disputeId with status := newStatus }
                 else d.disputes i }

/-- `addArbitrator(arbitrator)` (owner only). -/
def addArbitrator (d : DState) (sender arbitrator : Nat) :
    Except String DState :=
  if sender ≠ d.owner then .error "Not the owner" else
  if arbitrator = 0 then .error "Invalid arbitrator address" else
  if d.authorizedArbitrators arbitrator = true then .error "Already an arbitrator" else
  .ok { d with authorizedArbitrators := fun a =>
                 if a = arbitrator then true else d.authorizedArbitrators a }

/-- `removeArbitrator(arbitrator)` (owner only). -/
def removeArbitrator (d : DState) (sender arbitrator : Nat) :
    Except String DState :=
  if sender ≠ d.owner then .error "Not the owner" else
  if arbitrator = d.mainArbitrator then .error "Cannot remove main arbitrator" else
  if d.authorizedArbitrators arbitrator = false then .error "Not an arbitrator" else
  .ok { d with authorizedArbitrators := fun a =>
                 if a = arbitrator then false else d.authorizedArbitrators a }

/-- `setDisputeFee(newFee)` (owner only, bounded by `0.1 ether`). -/
def setDisputeFee (d : DState) (sender newFee : Nat) : Except String DState :=
  if sender ≠ d.owner then .error "Not the owner" else
  if newFee = 0 then .error "Fee must be greater than 0" else
  if 100000000000000000 < newFee then .error "Fee too high" else
  .ok { d with disputeFee := newFee }

/-- `setMainArbitrator(newArbitrator)` (owner only). -/
def setMainArbitrator (d : DState) (sender newArbitrator : Nat) :
    Except String DState :=
  if sender ≠ d.owner then .error "Not the owner" else
  if newArbitrator = 0 then .error "Invalid address" else
  let d1 := { d with authorizedArbitrators := fun a =>
                       if a = d.mainArbitrator then false
                       else d.authorizedArbitrators a }
  .ok { d1 with mainArbitrator := newArbitrator,
                authorizedArbitrators := fun a =>
                  if a = newArbitrator then true
                  else d1.authorizedArbitrators a }

/-- `emergencyWithdraw()` on the dispute contract (owner only). -/
def emergencyWithdrawD (d : DState) (sender : Nat) : Except String DState :=
  if sender ≠ d.owner then .error "Not the owner" else
  transferD d d.owner d.balance

/-- The `receive() external payable` fallback: accepts any ether. -/
def receiveEther (d : DState) (value : Nat) : DState :=
  { d with balance := d.balance + value }

/-- Sum of `f 0 + f 1 + ... + f (n-1)`. -/
def sumBelow (f : Nat → Nat) : Nat → Nat
  | 0 => 0
  | n + 1 => sumBelow f n + f n

/-- The value the marketplace contract actually holds for one order:
the seller's deposit while Created, both deposits while Funded, and the
buyer's never-paid-out matching deposit after Confirmed. -/
def custodyTerm (o : Order) : Nat :=
  match o.status with
  | .Created => o.amount
  | .Funded => 2 * o.amount
  | .Confirmed => o.amount
  | _ => 0

/-- Total custody the marketplace's order book accounts for. -/
def custodySum (s : MState) : Nat :=
  sumBelow (fun i => custodyTerm (s.orders i)) s.nextOrderId

/-- Sum of `amount` over orders whose status is Funded
(the order-side term of the spec's claimed custody equation). -/
def fundedSum (s : MState) : Nat :=
  sumBelow (fun i => if (s.orders i).status = .Funded then (s.orders i).amount else 0)
    s.nextOrderId

/-- Sum of `disputeFee` over disputes whose status is Open or UnderReview
(the dispute-side term of the spec's claimed custody equation). -/
def activeFeeSum (d : DState) : Nat :=
  sumBelow
    (fun i =>
      if (d.disputes i).status = .Open ∨ (d.disputes i).status = .UnderReview then
        (d.disputes i).disputeFee
      else 0)
    d.nextDisputeId

/-- Modelled from the spec: the declared dispute state machine
(initial Open; Open→UnderReview by setting under review; Open or
UnderReview→Resolved by arbitration; Open or UnderReview→Cancelled).
Used to compare the code's actual status transitions against the
declared machine. -/
def disputeEdge : DisputeStatus → DisputeStatus → Bool
  | .Open, .UnderReview => true
  | .Open, .Resolved => true
  | .Open, .Cancelled => true
  | .UnderReview, .Resolved => true
  | .UnderReview, .Cancelled => true
  | _, _ => false

/-- One successful state-changing call on the marketplace contract,
`emergencyWithdraw` excluded (any caller, any arguments). -/
inductive MStep : MState → MState → Prop where
  | create (s s' : MState) (sender value : Nat) (description : String) (ts : Nat)
      (h : createOrder s sender value description ts = .ok s') : MStep s s'
  | fund (s s' : MState) (sender value orderId ts : Nat)
      (h : fundOrder s sender value orderId ts = .ok s') : MStep s s'
  | confirm (s s' : MState) (sender orderId ts : Nat)
      (h : confirmReceipt s sender orderId ts = .ok s') : MStep s s'
  | cancel (s s' : MState) (sender orderId : Nat)
      (h : cancelOrder s sender orderId = .ok s') : MStep s s'
  | penalize (s s' : MState) (sender user : Nat) (penalty : Int) (reason : String)
      (h : penalizeReputation s sender user penalty reason = .ok s') : MStep s s'
  | verify (s s' : MState) (sender user : Nat)
      (h : verifyUser s sender user = .ok s') : MStep s s'
  | revoke (s s' : MState) (sender user : Nat)
      (h : revokeVerification s sender user = .ok s') : MStep s s'
  | setFee (s s' : MState) (sender newFeePercent : Nat)
      (h : setPlatformFee s sender newFeePercent = .ok s') : MStep s s'
  | setRecipient (s s' : MState) (sender newRecipient : Nat)
      (h : setFeeRecipient s sender newRecipient = .ok s') : MStep s s'

/-- Marketplace states reachable from a fresh deployment by successful
calls other than `emergencyWithdraw`. -/
inductive MReachable : MState → Prop where
  | init (deployer feeRecipient0 : Nat) (s : MState)
      (h : mkMarketplace deployer feeRecipient0 = .ok s) : MReachable s
  | step (s s' : MState) (hs : MReachable s) (st : MStep s s') : MReachable s'

/-- One successful state-changing call on the dispute contract (any
caller, any arguments, any marketplace state read through the view). -/
inductive DStep : DState → DState → Prop where
  | raise (d d' : DState) (m : MState) (sender value orderId : Nat)
      (reason evidenceHash : String) (ts : Nat)
      (h : raiseDispute d m sender value orderId reason evidenceHash ts = .ok d') :
      DStep d d'
  | evidence (d d' : DState) (m : MState) (sender disputeId : Nat)
      (evidenceHash description : String) (ts : Nat)
      (h : submitEvidence d m sender disputeId evidenceHash description ts = .ok d') :
      DStep d d'
  | resolve (d d' : DState) (m : MState) (sender disputeId : Nat) (w : Winner)
      (resolution : String) (ts : Nat)
      (h : resolveDispute d m sender disputeId w resolution ts = .ok d') :
      DStep d d'
  | updateStatus (d d' : DState) (sender disputeId : Nat) (newStatus : DisputeStatus)
      (h : updateDisputeStatus d sender disputeId newStatus = .ok d') : DStep d d'
  | addArb (d d' : DState) (sender arbitrator : Nat)
      (h : addArbitrator d sender arbitrator = .ok d') : DStep d d'
  | removeArb (d d' : DState) (sender arbitrator : Nat)
      (h : removeArbitrator d sender arbitrator = .ok d') : DStep d d'
  | setFee (d d' : DState) (sender newFee : Nat)
      (h : setDisputeFee d sender newFee = .ok d') : DStep d d'
  | setMain (d d' : DState) (sender newArbitrator : Nat)
      (h : setMainArbitrator d sender newArbitrator = .ok d') : DStep d d'
  | withdraw (d d' : DState) (sender : Nat)
      (h : emergencyWithdrawD d sender = .ok d') : DStep d d'
  | recv (d : DState) (value : Nat) : DStep d (receiveEther d value)

/-- Placeholder marketplace state (never reachable; used only to strip
the `Except` wrapper off concrete runs that are separately proved to
succeed). -/
def dummyM : MState :=
  { nextOrderId := 0, platformFeePercent := 0, feeRecipient := 0, owner := 0,
    orders := fun _ => defaultOrder, reputations := fun _ => defaultRep,
    balance := 0, paidOut := fun _ => 0 }

/-- Placeholder dispute state, in the same role as `dummyM`. -/
def dummyD : DState :=
  { marketplace := 0, owner := 0, mainArbitrator := 0, disputeFee := 0,
    nextDisputeId := 0, disputes := fun _ => defaultDispute,
    orderToDispute := fun _ => 0, disputeEvidence := fun _ => [],
    authorizedArbitrators := fun _ => false,
    arbitratorResolutionCount := fun _ => 0, balance := 0, paidOut := fun _ => 0 }

/-- Concrete scenario: marketplace deployed by address 1 with fee
recipient 9. -/
def mA : MState := (mkMarketplace 1 9).toOption.getD dummyM

/-- Scenario: seller 2 creates order 0 with deposit 100. -/
def mB : MState := (createOrder mA 2 100 "item" 0).toOption.getD dummyM

/-- Scenario: buyer 3 funds order 0 with a matching 100. -/
def mC : MState := (fundOrder mB 3 100 0 1).toOption.getD dummyM

/-- Scenario: buyer 3 confirms receipt of order 0. -/
def mConf : MState := (confirmReceipt mC 3 0 2).toOption.getD dummyM

/-- Scenario: the owner penalizes address 2 by 1000 while address 2 has
`totalOrders = 0` (score clamps to -100). -/
def mPen : MState := (penalizeReputation mA 1 2 1000 "fraud").toOption.getD dummyM

/-- Fee-exactness scenario: order 0 with amount 1000000. -/
def m8a : MState := (createOrder mA 2 1000000 "big" 0).toOption.getD dummyM

/-- Fee-exactness scenario: buyer 3 funds the 1000000 order. -/
def m8b : MState := (fundOrder m8a 3 1000000 0 1).toOption.getD dummyM

/-- Fee-exactness scenario: buyer 3 confirms; fees are paid out. -/
def m8c : MState := (confirmReceipt m8b 3 0 2).toOption.getD dummyM

/-- Scenario: dispute contract deployed by 1 against marketplace
address 5 with main arbitrator 4. -/
def dA : DState := (mkDisputeResolution 1 5 4).toOption.getD dummyD

/-- Scenario: seller 2 raises the first-ever dispute (id 0) on the
funded order 0, paying the minimum fee. -/
def dB : DState :=
  (raiseDispute dA mC 2 initialDisputeFee 0 "not received" "QmEvidence" 3).toOption.getD
    dummyD

/-- Scenario: arbitrator 4 moves dispute 0 to UnderReview. -/
def dUR : DState := (updateDisputeStatus dB 4 0 .UnderReview).toOption.getD dummyD

/-- Scenario: arbitrator 4 moves dispute 0 from UnderReview back to
Open. -/
def dBack : DState := (updateDisputeStatus dUR 4 0 .Open).toOption.getD dummyD

/-- Scenario: someone tops the dispute contract up with 100 wei through
`receive()` so that the resolution payout cannot fail for lack of
balance. -/
def dPlus : DState := receiveEther dB 100

/-- Scenario: arbitrator 4 resolves dispute 0 for the buyer. -/
def dRes : DState :=
  (resolveDispute dPlus mC 4 0 .Buyer "buyer wins" 5).toOption.getD dummyD

theorem isOk_exists {α : Type} {e : Except String α} (h : e.isOk = true) :
    ∃ a, e = .ok a := by
  cases e with
  | error err => exact absurd h (by simp [Except.isOk, Except.toBool])
  | ok a => exact ⟨a, rfl⟩

theorem bind_ok {α β : Type} {e : Except String α} {g : α → Except String β}
    {b : β} (h : e.bind g = .ok b) : ∃ a, e = .ok a ∧ g a = .ok b := by
  cases e with
  | error err => exact absurd h (by simp [Except.bind])
  | ok a => exact ⟨a, rfl, by simpa [Except.bind] using h⟩

theorem sumBelow_congr {f g : Nat → Nat} :
    ∀ {n : Nat}, (∀ i, i < n → f i = g i) → sumBelow f n = sumBelow g n := by
  intro n
  induction n with
  | zero => intro _; rfl
  | succ n ih =>
    intro h
    simp only [sumBelow]
    rw [ih (fun i hi => h i (Nat.lt_succ_of_lt hi)), h n (Nat.lt_succ_self n)]

theorem sumBelow_update {f g : Nat → Nat} {j : Nat} :
    ∀ {n : Nat}, j < n → (∀ i, i < n → i ≠ j → f i = g i) →
      sumBelow g n + f j = sumBelow f n + g j := by
  intro n
  induction n with
  | zero => intro h; exact absurd h (Nat.not_lt_zero j)
  | succ n ih =>
    intro hj h
    simp only [sumBelow]
    rcases Nat.lt_succ_iff_lt_or_eq.mp hj with hlt | heq
    · have hn : f n = g n := h n (Nat.lt_succ_self n) (by omega)
      have := ih hlt (fun i hi hij => h i (Nat.lt_succ_of_lt hi) hij)
      omega
    · subst heq
      have : sumBelow f j = sumBelow g j :=
        sumBelow_congr (fun i hi => h i (Nat.lt_succ_of_lt hi) (by omega))
      omega

theorem transferM_ok {s s' : MState} {r x : Nat}
    (h : transferM s r x = .ok s') :
    x ≤ s.balance ∧
      s' = { s with balance := s.balance - x,
                    paidOut := fun a =>
                      if a = r then s.paidOut a + x else s.paidOut a } := by
  unfold transferM at h
  split_ifs at h with h1
  injection h with h2
  subst h2
  exact ⟨by omega, rfl⟩

theorem transferD_ok {d d' : DState} {r x : Nat}
    (h : transferD d r x = .ok d') :
    x ≤ d.balance ∧
      d' = { d with balance := d.balance - x,
                    paidOut := fun a =>
                      if a = r then d.paidOut a + x else d.paidOut a } := by
  unfold transferD at h
  split_ifs at h with h1
  injection h with h2
  subst h2
  exact ⟨by omega, rfl⟩

@[simp] theorem setRep_balance (s : MState) (u : Nat) (r : UserReputation) :
    (setRep s u r).balance = s.balance := rfl

@[simp] theorem setRep_orders (s : MState) (u : Nat) (r : UserReputation) :
    (setRep s u r).orders = s.orders := rfl

@[simp] theorem setRep_nextOrderId (s : MState) (u : Nat) (r : UserReputation) :
    (setRep s u r).nextOrderId = s.nextOrderId := rfl

@[simp] theorem setRep_platformFeePercent (s : MState) (u : Nat) (r : UserReputation) :
    (setRep s u r).platformFeePercent = s.platformFeePercent := rfl

@[simp] theorem setRep_feeRecipient (s : MState) (u : Nat) (r : UserReputation) :
    (setRep s u r).feeRecipient = s.feeRecipient := rfl

@[simp] theorem setRep_paidOut (s : MState) (u : Nat) (r : UserReputation) :
    (setRep s u r).paidOut = s.paidOut := rfl

@[simp] theorem updateReputationState_balance (s : MState) (u : Nat) (c : Int) :
    (updateReputationState s u c).balance = s.balance := rfl

@[simp] theorem updateReputationState_orders (s : MState) (u : Nat) (c : Int) :
    (updateReputationState s u c).orders = s.orders := rfl

@[simp] theorem updateReputationState_nextOrderId (s : MState) (u : Nat) (c : Int) :
    (updateReputationState s u c).nextOrderId = s.nextOrderId := rfl

@[simp] theorem updateReputationState_platformFeePercent (s : MState) (u : Nat)
    (c : Int) :
    (updateReputationState s u c).platformFeePercent = s.platformFeePercent := rfl

@[simp] theorem updateReputationState_feeRecipient (s : MState) (u : Nat) (c : Int) :
    (updateReputationState s u c).feeRecipient = s.feeRecipient := rfl

@[simp] theorem updateReputationState_paidOut (s : MState) (u : Nat) (c : Int) :
    (updateReputationState s u c).paidOut = s.paidOut := rfl

@[simp] theorem bumpRep_balance (s : MState) (u : Nat)
    (f : UserReputation → UserReputation) : (bumpRep s u f).balance = s.balance := rfl

@[simp] theorem bumpRep_orders (s : MState) (u : Nat)
    (f : UserReputation → UserReputation) : (bumpRep s u f).orders = s.orders := rfl

@[simp] theorem bumpRep_nextOrderId (s : MState) (u : Nat)
    (f : UserReputation → UserReputation) :
    (bumpRep s u f).nextOrderId = s.nextOrderId := rfl

@[simp] theorem bumpRep_platformFeePercent (s : MState) (u : Nat)
    (f : UserReputation → UserReputation) :
    (bumpRep s u f).platformFeePercent = s.platformFeePercent := rfl

@[simp] theorem bumpRep_feeRecipient (s : MState) (u : Nat)
    (f : UserReputation → UserReputation) :
    (bumpRep s u f).feeRecipient = s.feeRecipient := rfl

@[simp] theorem bumpRep_paidOut (s : MState) (u : Nat)
    (f : UserReputation → UserReputation) : (bumpRep s u f).paidOut = s.paidOut := rfl

theorem createOrder_ok {s s' : MState} {sender value : Nat}
    {description : String} {ts : Nat}
    (h : createOrder s sender value description ts = .ok s') :
    0 < value ∧
    s'.nextOrderId = s.nextOrderId + 1 ∧
    s'.platformFeePercent = s.platformFeePercent ∧
    s'.balance = s.balance + value ∧
    (∀ i, i ≠ s.nextOrderId → s'.orders i = s.orders i) ∧
    (s'.orders s.nextOrderId).amount = value ∧
    (s'.orders s.nextOrderId).status = .Created := by
  simp only [createOrder, setRep] at h
  split_ifs at h with h0 h1 h2 h3 h4 h5 h6 <;>
    (injection h with h7; subst h7;
     refine ⟨by omega, rfl, rfl, rfl, fun i hi => by simp [hi], by simp, by simp⟩)

theorem fundOrder_ok {s s' : MState} {sender value orderId ts : Nat}
    (h : fundOrder s sender value orderId ts = .ok s') :
    (s.orders orderId).status = .Created ∧
    value = (s.orders orderId).amount ∧
    s'.nextOrderId = s.nextOrderId ∧
    s'.platformFeePercent = s.platformFeePercent ∧
    s'.balance = s.balance + value ∧
    (∀ i, i ≠ orderId → s'.orders i = s.orders i) ∧
    s'.orders orderId =
      { s.orders orderId with buyer := sender, status := .Funded, fundedAt := ts } := by
  simp only [fundOrder, setRep] at h
  split_ifs at h with h0 h1 h2 h3 <;>
    (injection h with h7; subst h7;
     refine ⟨not_not.mp h0, not_not.mp h1, rfl, rfl, rfl,
       fun i hi => by simp [hi], by simp⟩)

theorem confirmReceipt_ok {s s' : MState} {sender orderId ts : Nat}
    (h : confirmReceipt s sender orderId ts = .ok s') :
    (s.orders orderId).status = .Funded ∧
    s'.nextOrderId = s.nextOrderId ∧
    s'.platformFeePercent = s.platformFeePercent ∧
    (∀ i, i ≠ orderId → s'.orders i = s.orders i) ∧
    s'.orders orderId =
      { s.orders orderId with status := .Confirmed, confirmedAt := ts } ∧
    ((s.orders orderId).amount -
        (s.orders orderId).amount * s.platformFeePercent / 10000) +
      (s.orders orderId).amount * s.platformFeePercent / 10000 ≤ s.balance ∧
    s'.balance +
        (((s.orders orderId).amount -
            (s.orders orderId).amount * s.platformFeePercent / 10000) +
          (s.orders orderId).amount * s.platformFeePercent / 10000) = s.balance := by
  simp only [confirmReceipt] at h
  split_ifs at h with h0 h1
  obtain ⟨s7, htr1, htr2⟩ := bind_ok h
  obtain ⟨hb1, rfl⟩ := transferM_ok htr1
  obtain ⟨hb2, rfl⟩ := transferM_ok htr2
  simp only [bumpRep_balance, updateReputationState_balance] at hb1 hb2
  refine ⟨not_not.mp h0, rfl, rfl, fun i hi => by simp [hi], by simp, ?_, ?_⟩ <;>
    (try simp only [bumpRep_balance, updateReputationState_balance]) <;> omega

theorem cancelOrder_ok {s s' : MState} {sender orderId : Nat}
    (h : cancelOrder s sender orderId = .ok s') :
    (s.orders orderId).status = .Created ∧
    s'.nextOrderId = s.nextOrderId ∧
    s'.platformFeePercent = s.platformFeePercent ∧
    (∀ i, i ≠ orderId → s'.orders i = s.orders i) ∧
    s'.orders orderId = { s.orders orderId with status := .Cancelled } ∧
    (s.orders orderId).amount ≤ s.balance ∧
    s'.balance + (s.orders orderId).amount = s.balance := by
  simp only [cancelOrder] at h
  split_ifs at h with h0 h1
  obtain ⟨hb, rfl⟩ := transferM_ok h
  dsimp only at hb
  refine ⟨not_not.mp h1, rfl, rfl, fun i hi => by simp [hi], by simp, ?_, ?_⟩ <;>
    (try dsimp only) <;> omega

theorem penalizeReputation_ok {s s' : MState} {sender user : Nat} {penalty : Int}
    {reason : String} (h : penalizeReputation s sender user penalty reason = .ok s') :
    s'.orders = s.orders ∧ s'.balance = s.balance ∧
    s'.nextOrderId = s.nextOrderId ∧
    s'.platformFeePercent = s.platformFeePercent ∧
    (s'.reputations user).totalOrders = (s.reputations user).totalOrders := by
  simp only [penalizeReputation] at h
  split_ifs at h with h0 h1
  injection h with h2
  subst h2
  refine ⟨rfl, rfl, rfl, rfl, ?_⟩
  simp [bumpRep, setRep, updateReputationState]

theorem verifyUser_ok {s s' : MState} {sender user : Nat}
    (h : verifyUser s sender user = .ok s') :
    s'.orders = s.orders ∧ s'.balance = s.balance ∧
    s'.nextOrderId = s.nextOrderId ∧
    s'.platformFeePercent = s.platformFeePercent := by
  simp only [verifyUser] at h
  split_ifs at h with h0 h1
  injection h with h2
  subst h2
  exact ⟨rfl, rfl, rfl, rfl⟩

theorem revokeVerification_ok {s s' : MState} {sender user : Nat}
    (h : revokeVerification s sender user = .ok s') :
    s'.orders = s.orders ∧ s'.balance = s.balance ∧
    s'.nextOrderId = s.nextOrderId ∧
    s'.platformFeePercent = s.platformFeePercent := by
  simp only [revokeVerification] at h
  split_ifs at h with h0
  injection h with h2
  subst h2
  exact ⟨rfl, rfl, rfl, rfl⟩

theorem setPlatformFee_ok {s s' : MState} {sender newFeePercent : Nat}
    (h : setPlatformFee s sender newFeePercent = .ok s') :
    s'.orders = s.orders ∧ s'.balance = s.balance ∧
    s'.nextOrderId = s.nextOrderId ∧ s'.platformFeePercent ≤ 1000 := by
  simp only [setPlatformFee] at h
  split_ifs at h with h0 h1
  injection h with h2
  subst h2
  exact ⟨rfl, rfl, rfl, by dsimp only; omega⟩

theorem setFeeRecipient_ok {s s' : MState} {sender newRecipient : Nat}
    (h : setFeeRecipient s sender newRecipient = .ok s') :
    s'.orders = s.orders ∧ s'.balance = s.balance ∧
    s'.nextOrderId = s.nextOrderId ∧
    s'.platformFeePercent = s.platformFeePercent := by
  simp only [setFeeRecipient] at h
  split_ifs at h with h0 h1
  injection h with h2
  subst h2
  exact ⟨rfl, rfl, rfl, rfl⟩

theorem feeBounded {a p : Nat} (hp : p ≤ 1000) : a * p / 10000 ≤ a := by
  have h1 : a * p ≤ a * 10000 := Nat.mul_le_mul_left a (by omega)
  have h2 : a * p / 10000 ≤ a * 10000 / 10000 := Nat.div_le_div_right h1
  rwa [Nat.mul_div_cancel a (by norm_num)] at h2

theorem mReachable_invariant {s : MState} (h : MReachable s) :
    s.balance = custodySum s ∧
    (∀ i, s.nextOrderId ≤ i → (s.orders i).amount = 0) ∧
    s.platformFeePercent ≤ 1000 := by
  induction h with
  | init deployer feeRecipient0 s h0 =>
    simp only [mkMarketplace] at h0
    split_ifs at h0 with h1
    injection h0 with h2
    subst h2
    exact ⟨rfl, fun i _ => rfl, by norm_num⟩
  | step s s' hs st ih =>
    obtain ⟨ibal, iaux, ifee⟩ := ih
    cases st with
    | create sender value description ts h =>
      obtain ⟨hv, hnext, hfee, hbal, hoth, hamt, hstat⟩ := createOrder_ok h
      have hnew : custodyTerm (s'.orders s.nextOrderId) = value := by
        simp [custodyTerm, hstat, hamt]
      have hcongr : sumBelow (fun i => custodyTerm (s'.orders i)) s.nextOrderId =
          sumBelow (fun i => custodyTerm (s.orders i)) s.nextOrderId :=
        sumBelow_congr (fun i hi => by simp only [hoth i (by omega)])
      have hsum : custodySum s' = custodySum s + value := by
        unfold custodySum
        rw [hnext]
        simp only [sumBelow]
        rw [hcongr, hnew]
      refine ⟨by omega, ?_, by omega⟩
      intro i hi
      rw [hnext] at hi
      rw [hoth i (by omega)]
      exact iaux i (by omega)
    | fund sender value orderId ts h =>
      obtain ⟨hstat, hval, hnext, hfee, hbal, hoth, hord⟩ := fundOrder_ok h
      have haux : ∀ i, s'.nextOrderId ≤ i → (s'.orders i).amount = 0 := by
        intro i hi
        rw [hnext] at hi
        by_cases hio : i = orderId
        · subst hio
          rw [hord]
          exact iaux i hi
        · rw [hoth i hio]
          exact iaux i hi
      rcases Nat.lt_or_ge orderId s.nextOrderId with hj | hj
      · have hold : custodyTerm (s.orders orderId) = (s.orders orderId).amount := by
          simp [custodyTerm, hstat]
        have hnew : custodyTerm (s'.orders orderId) = 2 * (s.orders orderId).amount := by
          rw [hord]; simp [custodyTerm]
        have hupd := sumBelow_update (f := fun i => custodyTerm (s.orders i))
          (g := fun i => custodyTerm (s'.orders i)) hj
          (fun i _ hij => by simp only [hoth i hij])
        have hsum : custodySum s' + custodyTerm (s.orders orderId) =
            custodySum s + custodyTerm (s'.orders orderId) := by
          unfold custodySum
          rw [hnext]
          exact hupd
        rw [hold, hnew] at hsum
        exact ⟨by omega, haux, by omega⟩
      · have hz : (s.orders orderId).amount = 0 := iaux orderId hj
        have hsum : custodySum s' = custodySum s := by
          unfold custodySum
          rw [hnext]
          exact sumBelow_congr (fun i hi => by simp only [hoth i (by omega)])
        exact ⟨by omega, haux, by omega⟩
    | confirm sender orderId ts h =>
      obtain ⟨hstat, hnext, hfee, hoth, hord, hble, hbal⟩ := confirmReceipt_ok h
      have haux : ∀ i, s'.nextOrderId ≤ i → (s'.orders i).amount = 0 := by
        intro i hi
        rw [hnext] at hi
        by_cases hio : i = orderId
        · subst hio
          rw [hord]
          exact iaux i hi
        · rw [hoth i hio]
          exact iaux i hi
      have hfl : (s.orders orderId).amount * s.platformFeePercent / 10000 ≤
          (s.orders orderId).amount := feeBounded ifee
      rcases Nat.lt_or_ge orderId s.nextOrderId with hj | hj
      · have hold : custodyTerm (s.orders orderId) = 2 * (s.orders orderId).amount := by
          simp [custodyTerm, hstat]
        have hnew : custodyTerm (s'.orders orderId) = (s.orders orderId).amount := by
          rw [hord]; simp [custodyTerm]
        have hupd := sumBelow_update (f := fun i => custodyTerm (s.orders i))
          (g := fun i => custodyTerm (s'.orders i)) hj
          (fun i _ hij => by simp only [hoth i hij])
        have hsum : custodySum s' + custodyTerm (s.orders orderId) =
            custodySum s + custodyTerm (s'.orders orderId) := by
          unfold custodySum
          rw [hnext]
          exact hupd
        rw [hold, hnew] at hsum
        exact ⟨by omega, haux, by omega⟩
      · have hz : (s.orders orderId).amount = 0 := iaux orderId hj
        have hz2 : (s.orders orderId).amount * s.platformFeePercent / 10000 = 0 := by
          rw [hz]
          simp
        have hsum : custodySum s' = custodySum s := by
          unfold custodySum
          rw [hnext]
          exact sumBelow_congr (fun i hi => by simp only [hoth i (by omega)])
        exact ⟨by omega, haux, by omega⟩
    | cancel sender orderId h =>
      obtain ⟨hstat, hnext, hfee, hoth, hord, hble, hbal⟩ := cancelOrder_ok h
      have haux : ∀ i, s'.nextOrderId ≤ i → (s'.orders i).amount = 0 := by
        intro i hi
        rw [hnext] at hi
        by_cases hio : i = orderId
        · subst hio
          rw [hord]
          exact iaux i hi
        · rw [hoth i hio]
          exact iaux i hi
      rcases Nat.lt_or_ge orderId s.nextOrderId with hj | hj
      · have hold : custodyTerm (s.orders orderId) = (s.orders orderId).amount := by
          simp [custodyTerm, hstat]
        have hnew : custodyTerm (s'.orders orderId) = 0 := by
          rw [hord]; simp [custodyTerm]
        have hupd := sumBelow_update (f := fun i => custodyTerm (s.orders i))
          (g := fun i => custodyTerm (s'.orders i)) hj
          (fun i _ hij => by simp only [hoth i hij])
        have hsum : custodySum s' + custodyTerm (s.orders orderId) =
            custodySum s + custodyTerm (s'.orders orderId) := by
          unfold custodySum
          rw [hnext]
          exact hupd
        rw [hold, hnew] at hsum
        exact ⟨by omega, haux, by omega⟩
      · have hz : (s.orders orderId).amount = 0 := iaux orderId hj
        have hsum : custodySum s' = custodySum s := by
          unfold custodySum
          rw [hnext]
          exact sumBelow_congr (fun i hi => by simp only [hoth i (by omega)])
        exact ⟨by omega, haux, by omega⟩
    | penalize sender user penalty reason h =>
      obtain ⟨ho, hb, hn, hp, _⟩ := penalizeReputation_ok h
      have hsum : custodySum s' = custodySum s := by
        unfold custodySum
        rw [hn, ho]
      exact ⟨by omega, fun i hi => by rw [hn] at hi; rw [ho]; exact iaux i hi,
        by omega⟩
    | verify sender user h =>
      obtain ⟨ho, hb, hn, hp⟩ := verifyUser_ok h
      have hsum : custodySum s' = custodySum s := by
        unfold custodySum
        rw [hn, ho]
      exact ⟨by omega, fun i hi => by rw [hn] at hi; rw [ho]; exact iaux i hi,
        by omega⟩
    | revoke sender user h =>
      obtain ⟨ho, hb, hn, hp⟩ := revokeVerification_ok h
      have hsum : custodySum s' = custodySum s := by
        unfold custodySum
        rw [hn, ho]
      exact ⟨by omega, fun i hi => by rw [hn] at hi; rw [ho]; exact iaux i hi,
        by omega⟩
    | setFee sender newFeePercent h =>
      obtain ⟨ho, hb, hn, hp⟩ := setPlatformFee_ok h
      have hsum : custodySum s' = custodySum s := by
        unfold custodySum
        rw [hn, ho]
      exact ⟨by omega, fun i hi => by rw [hn] at hi; rw [ho]; exact iaux i hi,
        by omega⟩
    | setRecipient sender newRecipient h =>
      obtain ⟨ho, hb, hn, hp⟩ := setFeeRecipient_ok h
      have hsum : custodySum s' = custodySum s := by
        unfold custodySum
        rw [hn, ho]
      exact ⟨by omega, fun i hi => by rw [hn] at hi; rw [ho]; exact iaux i hi,
        by omega⟩

theorem raiseDispute_ok {d d' : DState} {m : MState} {sender value orderId : Nat}
    {reason evidenceHash : String} {ts : Nat}
    (h : raiseDispute d m sender value orderId reason evidenceHash ts = .ok d') :
    d.disputeFee ≤ value ∧ reason ≠ "" ∧ evidenceHash ≠ "" ∧
    (m.orders orderId).status = .Funded ∧
    (sender = (m.orders orderId).seller ∨ sender = (m.orders orderId).buyer) ∧
    (d.orderToDispute orderId = 0 ∨
      (d.disputes (d.orderToDispute orderId)).status = .Cancelled) ∧
    0 < (m.orders orderId).amount ∧
    d'.nextDisputeId = d.nextDisputeId + 1 ∧
    (∀ i, i ≠ d.nextDisputeId → d'.disputes i = d.disputes i) ∧
    (∀ i, i ≠ d.nextDisputeId → d'.disputeEvidence i = d.disputeEvidence i) ∧
    d'.disputes d.nextDisputeId =
      { orderId := orderId, disputer := sender, reason := reason,
        evidenceHash := evidenceHash, status := .Open, winner := .None,
        resolution := "", createdAt := ts, resolvedAt := 0, disputeFee := value } ∧
    d'.balance = d.balance + value := by
  simp only [raiseDispute] at h
  split_ifs at h with h1 h2 h3 h4 h5 h6 h7
  injection h with h8
  subst h8
  refine ⟨by omega, h2, h3, not_not.mp h4, ?_, ?_, by omega, rfl,
    fun i hi => by simp [hi], fun i hi => by simp [hi], by simp, rfl⟩
  · rcases not_and_or.mp h5 with h | h
    · exact Or.inl (not_not.mp h)
    · exact Or.inr (not_not.mp h)
  · rcases not_and_or.mp h6 with h | h
    · exact Or.inl (not_not.mp h)
    · exact Or.inr (not_not.mp h)

theorem submitEvidence_ok {d d' : DState} {m : MState} {sender disputeId : Nat}
    {evidenceHash description : String} {ts : Nat}
    (h : submitEvidence d m sender disputeId evidenceHash description ts = .ok d') :
    disputeId < d.nextDisputeId ∧
    ((d.disputes disputeId).status = .Open ∨
      (d.disputes disputeId).status = .UnderReview) ∧
    d'.disputes = d.disputes ∧ d'.nextDisputeId = d.nextDisputeId ∧
    (∀ i, i ≠ disputeId → d'.disputeEvidence i = d.disputeEvidence i) := by
  simp only [submitEvidence] at h
  split_ifs at h with h1 h2 h3 h4
  injection h with h5
  subst h5
  refine ⟨h1, ?_, rfl, rfl, fun i hi => by simp [hi]⟩
  rcases not_and_or.mp h2 with h | h
  · exact Or.inl (not_not.mp h)
  · exact Or.inr (not_not.mp h)

theorem updateDisputeStatus_ok {d d' : DState} {sender disputeId : Nat}
    {newStatus : DisputeStatus}
    (h : updateDisputeStatus d sender disputeId newStatus = .ok d') :
    isArbitrator d sender ∧ disputeId < d.nextDisputeId ∧
    (d.disputes disputeId).status ≠ .Resolved ∧
    d'.nextDisputeId = d.nextDisputeId ∧
    d'.disputeEvidence = d.disputeEvidence ∧
    (∀ i, i ≠ disputeId → d'.disputes i = d.disputes i) ∧
    d'.disputes disputeId = { d.disputes disputeId with status := newStatus } := by
  simp only [updateDisputeStatus] at h
  split_ifs at h with h1 h2 h3
  injection h with h4
  subst h4
  exact ⟨h1, h2, h3, rfl, rfl, fun i hi => by simp [hi], by simp⟩

theorem resolveDispute_ok {d d' : DState} {m : MState} {sender disputeId : Nat}
    {w : Winner} {resolution : String} {ts : Nat}
    (h : resolveDispute d m sender disputeId w resolution ts = .ok d') :
    isArbitrator d sender ∧ disputeId < d.nextDisputeId ∧ w ≠ .None ∧
    resolution ≠ "" ∧ (d.disputes disputeId).status ≠ .Resolved ∧
    d'.nextDisputeId = d.nextDisputeId ∧
    d'.disputeEvidence = d.disputeEvidence ∧
    (∀ i, i ≠ disputeId → d'.disputes i = d.disputes i) ∧
    d'.disputes disputeId =
      { d.disputes disputeId with status := .Resolved, winner := w,
                                  resolution := resolution, resolvedAt := ts } ∧
    (∀ a, d'.paidOut a = d.paidOut a +
      (if a = (if w = .Buyer then (m.orders (d.disputes disputeId).orderId).buyer
               else (m.orders (d.disputes disputeId).orderId).seller) then
         (m.orders (d.disputes disputeId).orderId).amount else 0) +
      (if a = (d.disputes disputeId).disputer then
         (d.disputes disputeId).disputeFee else 0)) := by
  simp only [resolveDispute] at h
  split_ifs at h with h1 h2 h3 h4 h5 hw hfee
  · obtain ⟨d2, htr1, h⟩ := bind_ok h
    obtain ⟨hb1, rfl⟩ := transferD_ok htr1
    obtain ⟨d3, hif, h6⟩ := bind_ok h
    obtain ⟨hb2, rfl⟩ := transferD_ok hif
    injection h6 with h7
    subst h7
    refine ⟨h1, h2, h3, h4, h5, rfl, rfl, fun i hi => by simp [hi], by simp, ?_⟩
    intro a
    rw [if_pos hw]
    dsimp only
    split_ifs <;> omega
  · obtain ⟨d2, htr1, h⟩ := bind_ok h
    obtain ⟨hb1, rfl⟩ := transferD_ok htr1
    obtain ⟨d3, hif, h6⟩ := bind_ok h
    injection hif with h8
    subst h8
    injection h6 with h7
    subst h7
    refine ⟨h1, h2, h3, h4, h5, rfl, rfl, fun i hi => by simp [hi], by simp, ?_⟩
    intro a
    have hz : (d.disputes disputeId).disputeFee = 0 := by omega
    rw [if_pos hw]
    dsimp only
    split_ifs <;> omega
  · obtain ⟨d2, htr1, h⟩ := bind_ok h
    obtain ⟨hb1, rfl⟩ := transferD_ok htr1
    obtain ⟨d3, hif, h6⟩ := bind_ok h
    obtain ⟨hb2, rfl⟩ := transferD_ok hif
    injection h6 with h7
    subst h7
    refine ⟨h1, h2, h3, h4, h5, rfl, rfl, fun i hi => by simp [hi], by simp, ?_⟩
    intro a
    rw [if_neg hw]
    dsimp only
    split_ifs <;> omega
  · obtain ⟨d2, htr1, h⟩ := bind_ok h
    obtain ⟨hb1, rfl⟩ := transferD_ok htr1
    obtain ⟨d3, hif, h6⟩ := bind_ok h
    injection hif with h8
    subst h8
    injection h6 with h7
    subst h7
    refine ⟨h1, h2, h3, h4, h5, rfl, rfl, fun i hi => by simp [hi], by simp, ?_⟩
    intro a
    have hz : (d.disputes disputeId).disputeFee = 0 := by omega
    rw [if_neg hw]
    dsimp only
    split_ifs <;> omega

theorem addArbitrator_ok {d d' : DState} {sender arbitrator : Nat}
    (h : addArbitrator d sender arbitrator = .ok d') :
    d'.disputes = d.disputes ∧ d'.disputeEvidence = d.disputeEvidence ∧
    d'.nextDisputeId = d.nextDisputeId := by
  simp only [addArbitrator] at h
  split_ifs at h with h1 h2 h3
  injection h with h4
  subst h4
  exact ⟨rfl, rfl, rfl⟩

theorem removeArbitrator_ok {d d' : DState} {sender arbitrator : Nat}
    (h : removeArbitrator d sender arbitrator = .ok d') :
    d'.disputes = d.disputes ∧ d'.disputeEvidence = d.disputeEvidence ∧
    d'.nextDisputeId = d.nextDisputeId := by
  simp only [removeArbitrator] at h
  split_ifs at h with h1 h2 h3
  injection h with h4
  subst h4
  exact ⟨rfl, rfl, rfl⟩

theorem setDisputeFee_ok {d d' : DState} {sender newFee : Nat}
    (h : setDisputeFee d sender newFee = .ok d') :
    d'.disputes = d.disputes ∧ d'.disputeEvidence = d.disputeEvidence ∧
    d'.nextDisputeId = d.nextDisputeId := by
  simp only [setDisputeFee] at h
  split_ifs at h with h1 h2 h3
  injection h with h4
  subst h4
  exact ⟨rfl, rfl, rfl⟩

theorem setMainArbitrator_ok {d d' : DState} {sender newArbitrator : Nat}
    (h : setMainArbitrator d sender newArbitrator = .ok d') :
    d'.disputes = d.disputes ∧ d'.disputeEvidence = d.disputeEvidence ∧
    d'.nextDisputeId = d.nextDisputeId := by
  simp only [setMainArbitrator] at h
  split_ifs at h with h1 h2
  injection h with h4
  subst h4
  exact ⟨rfl, rfl, rfl⟩

theorem emergencyWithdrawD_ok {d d' : DState} {sender : Nat}
    (h : emergencyWithdrawD d sender = .ok d') :
    d'.disputes = d.disputes ∧ d'.disputeEvidence = d.disputeEvidence ∧
    d'.nextDisputeId = d.nextDisputeId := by
  simp only [emergencyWithdrawD] at h
  split_ifs at h with h1
  obtain ⟨hb, rfl⟩ := transferD_ok h
  exact ⟨rfl, rfl, rfl⟩

theorem updateScore_bounds (s c : Int) :
    -100 ≤ updateScore s c ∧ updateScore s c ≤ 1000 := by
  simp only [updateScore]
  split_ifs <;> omega

theorem updateScore_foldl_bounds :
    ∀ (cs : List Int) (s : Int), -100 ≤ s → s ≤ 1000 →
      -100 ≤ cs.foldl updateScore s ∧ cs.foldl updateScore s ≤ 1000 := by
  intro cs
  induction cs with
  | nil => intro s h1 h2; exact ⟨h1, h2⟩
  | cons c tl ih =>
    intro s h1 h2
    simp only [List.foldl]
    exact ih (updateScore s c) (updateScore_bounds s c).1 (updateScore_bounds s c).2

/-- C1 (amended): in every marketplace state reachable without
`emergencyWithdraw`, the contract balance equals the sum over the order
book of: `amount` for Created orders (the seller's deposit is escrowed at
creation), `2 * amount` for Funded orders (both deposits), and `amount`
for Confirmed orders (the buyer's matching deposit is never paid out).
The spec's claimed equation (balance = Σ amount over Funded orders +
Σ disputeFee over active disputes) fails — see the counterexample. -/
theorem c1_custody_conservation {s : MState} (h : MReachable s) :
    s.balance = custodySum s :=
  (mReachable_invariant h).1

/-- C1 witness: the invariant evaluated on the concrete reachable state
after create(100) and fund(100). -/
theorem c1_custody_witness : mC.balance = custodySum mC :=
  c1_custody_conservation
    (MReachable.step mB mC
      (MReachable.step mA mB (MReachable.init 1 9 mA rfl)
        (MStep.create mA mB 2 100 "item" 0 rfl))
      (MStep.fund mB mC 3 100 0 1 rfl))

/-- C1 counterexample: immediately after a successful `createOrder` of
amount 100, the system holds 100 while the spec's claimed equation says
it should hold 0 (no Funded order, no active dispute). -/
theorem c1_custody_counterexample :
    (createOrder mA 2 100 "item" 0).isOk = true ∧
    mB.balance + dA.balance = 100 ∧
    fundedSum mB + activeFeeSum dA = 0 ∧
    ¬ mB.balance + dA.balance = fundedSum mB + activeFeeSum dA := by decide

/-- C2 (amended): a successful `raiseDispute` on order X implies that
X's recorded dispute id was the 0 sentinel or that the recorded dispute
was Cancelled; equivalently, while the recorded dispute has a nonzero id
and is not Cancelled (in particular while it is Open or UnderReview, and
also once Resolved), every further `raiseDispute` on X fails.  The
first-ever dispute (id 0) collides with the "no dispute" sentinel and
does not block a second dispute — see the counterexample. -/
theorem c2_single_dispute {d d' : DState} {m : MState}
    {sender value orderId : Nat} {reason evidenceHash : String} {ts : Nat}
    (h : raiseDispute d m sender value orderId reason evidenceHash ts = .ok d') :
    d.orderToDispute orderId = 0 ∨
      (d.disputes (d.orderToDispute orderId)).status = .Cancelled :=
  (raiseDispute_ok h).2.2.2.2.2.1

/-- C2 witness: the theorem applied to the concrete first raiseDispute. -/
theorem c2_single_dispute_witness :
    dA.orderToDispute 0 = 0 ∨
      (dA.disputes (dA.orderToDispute 0)).status = .Cancelled :=
  c2_single_dispute
    (show raiseDispute dA mC 2 initialDisputeFee 0 "not received" "QmEvidence" 3 =
      .ok dB from rfl)

/-- C2 counterexample: order 0 received the first-ever dispute (id 0,
still Open), yet a second raiseDispute on order 0 succeeds, because the
recorded id 0 is indistinguishable from "no dispute". -/
theorem c2_single_dispute_counterexample :
    dB.orderToDispute 0 = 0 ∧ (dB.disputes 0).status = .Open ∧
    (raiseDispute dB mC 3 initialDisputeFee 0 "second" "QmMore" 4).isOk = true := by
  decide

/-- C3 (amended): a successful `resolveDispute` marks the dispute
Resolved and pays out exactly the order's `amount` (a single deposit,
with no platform fee applied) to the winner's address, plus the stored
dispute fee to the original disputer — not the 2×amount pool net of the
fee policy that the spec claims. -/
theorem c3_resolution_payout {d d' : DState} {m : MState}
    {sender disputeId : Nat} {w : Winner} {resolution : String} {ts : Nat}
    (h : resolveDispute d m sender disputeId w resolution ts = .ok d') :
    (d'.disputes disputeId).status = .Resolved ∧
    (∀ a, d'.paidOut a = d.paidOut a +
      (if a = (if w = .Buyer then (m.orders (d.disputes disputeId).orderId).buyer
               else (m.orders (d.disputes disputeId).orderId).seller) then
         (m.orders (d.disputes disputeId).orderId).amount else 0) +
      (if a = (d.disputes disputeId).disputer then
         (d.disputes disputeId).disputeFee else 0)) := by
  obtain ⟨_, _, _, _, _, _, _, _, hrec, hpaid⟩ := resolveDispute_ok h
  exact ⟨by rw [hrec], hpaid⟩

/-- C3 witness: the payout equation instantiated at the concrete
resolution in favour of buyer 3. -/
theorem c3_resolution_payout_witness :
    dRes.paidOut 3 = dPlus.paidOut 3 +
      (if (3 : Nat) =
          (if Winner.Buyer = Winner.Buyer then
             (mC.orders (dPlus.disputes 0).orderId).buyer
           else (mC.orders (dPlus.disputes 0).orderId).seller) then
         (mC.orders (dPlus.disputes 0).orderId).amount else 0) +
      (if (3 : Nat) = (dPlus.disputes 0).disputer then
         (dPlus.disputes 0).disputeFee else 0) :=
  (c3_resolution_payout
    (show resolveDispute dPlus mC 4 0 .Buyer "buyer wins" 5 = .ok dRes from rfl)).2 3

/-- C3 counterexample: for the concrete dispute over the amount-100
order, the winning buyer is paid 100, not the pooled
`2*100 - 2*100*250/10000 = 195` that the claim demands; the dispute fee
is refunded to the disputing seller. -/
theorem c3_resolution_payout_counterexample :
    (resolveDispute dPlus mC 4 0 .Buyer "buyer wins" 5).isOk = true ∧
    (dPlus.disputes 0).disputer = 2 ∧
    (mC.orders 0).amount = 100 ∧
    dRes.paidOut 3 = 100 ∧
    dRes.paidOut 2 = initialDisputeFee ∧
    ¬ dRes.paidOut 3 =
        2 * (mC.orders 0).amount -
          2 * (mC.orders 0).amount * mC.platformFeePercent / 10000 := by decide

/-- C4: evaluation at the failing input.  `raiseDispute` succeeds
(creating dispute 0, status Open) but the order's status in the
marketplace remains Funded, not Disputed: `raiseDispute` only reads the
marketplace through a view interface (its type here returns only the
dispute-contract state), and no marketplace function ever assigns the
Disputed status. -/
theorem c4_order_status_after_raise :
    (raiseDispute dA mC 2 initialDisputeFee 0 "not received" "QmEvidence" 3).isOk
        = true ∧
    (dB.disputes 0).status = .Open ∧
    (mC.orders 0).status = .Funded ∧
    ¬ (mC.orders 0).status = .Disputed := by decide

/-- C5 (amended): a Resolved dispute is immutable — no dispute-contract
operation changes its record or its evidence list.  The monotonicity
half of the claim is false: `updateDisputeStatus` may move a
non-Resolved dispute to any status, including backward — see the
counterexample. -/
theorem c5_resolved_immutable {d d' : DState} {i : Nat}
    (hlt : i < d.nextDisputeId) (hres : (d.disputes i).status = .Resolved)
    (st : DStep d d') :
    d'.disputes i = d.disputes i ∧ d'.disputeEvidence i = d.disputeEvidence i := by
  cases st with
  | raise _ m sender value orderId reason evidenceHash ts h =>
    obtain ⟨_, _, _, _, _, _, _, hnext, hoth, hothe, _, _⟩ := raiseDispute_ok h
    exact ⟨hoth i (by omega), hothe i (by omega)⟩
  | evidence _ m sender disputeId evidenceHash description ts h =>
    obtain ⟨hex, hst, hdisp, hnext, hoth⟩ := submitEvidence_ok h
    have hne : i ≠ disputeId := by
      intro he
      subst he
      rcases hst with h2 | h2 <;> rw [hres] at h2 <;> cases h2
    exact ⟨by rw [hdisp], hoth i hne⟩
  | resolve _ m sender disputeId w resolution ts h =>
    obtain ⟨_, _, _, _, hnr, hnext, hev, hoth, _, _⟩ := resolveDispute_ok h
    have hne : i ≠ disputeId := fun he => hnr (he ▸ hres)
    exact ⟨hoth i hne, by rw [hev]⟩
  | updateStatus _ sender disputeId newStatus h =>
    obtain ⟨_, _, hnr, hnext, hev, hoth, _⟩ := updateDisputeStatus_ok h
    have hne : i ≠ disputeId := fun he => hnr (he ▸ hres)
    exact ⟨hoth i hne, by rw [hev]⟩
  | addArb _ sender arbitrator h =>
    obtain ⟨h1, h2, _⟩ := addArbitrator_ok h
    exact ⟨by rw [h1], by rw [h2]⟩
  | removeArb _ sender arbitrator h =>
    obtain ⟨h1, h2, _⟩ := removeArbitrator_ok h
    exact ⟨by rw [h1], by rw [h2]⟩
  | setFee _ sender newFee h =>
    obtain ⟨h1, h2, _⟩ := setDisputeFee_ok h
    exact ⟨by rw [h1], by rw [h2]⟩
  | setMain _ sender newArbitrator h =>
    obtain ⟨h1, h2, _⟩ := setMainArbitrator_ok h
    exact ⟨by rw [h1], by rw [h2]⟩
  | withdraw _ sender h =>
    obtain ⟨h1, h2, _⟩ := emergencyWithdrawD_ok h
    exact ⟨by rw [h1], by rw [h2]⟩
  | recv value => exact ⟨rfl, rfl⟩

/-- C5 witness: immutability of the concrete Resolved dispute 0 under a
further step. -/
theorem c5_resolved_immutable_witness :
    (receiveEther dRes 7).disputes 0 = dRes.disputes 0 ∧
    (receiveEther dRes 7).disputeEvidence 0 = dRes.disputeEvidence 0 :=
  c5_resolved_immutable (by decide) (by decide) (DStep.recv dRes 7)

/-- C5 counterexample: an arbitrator moves dispute 0 from UnderReview
back to Open via `updateDisputeStatus` — a transition that is not an
edge of the declared dispute state machine. -/
theorem c5_monotonic_counterexample :
    (updateDisputeStatus dB 4 0 .UnderReview).isOk = true ∧
    (dUR.disputes 0).status = .UnderReview ∧
    (updateDisputeStatus dUR 4 0 .Open).isOk = true ∧
    (dBack.disputes 0).status = .Open ∧
    disputeEdge .UnderReview .Open = false := by decide

/-- C6 (amended): given non-empty reason and evidence hash, sufficient
fee, no recorded blocking dispute, and positive order amount,
`raiseDispute` succeeds iff the order's status is Funded (not Funded or
Confirmed, as the claim states) and the caller is the order's seller or
buyer.  A Confirmed order cannot be disputed — see the counterexample. -/
theorem c6_raise_precondition {d : DState} {m : MState}
    {sender value orderId : Nat} {reason evidenceHash : String} {ts : Nat}
    (hfee : d.disputeFee ≤ value) (hr : reason ≠ "") (he : evidenceHash ≠ "")
    (hnod : d.orderToDispute orderId = 0 ∨
      (d.disputes (d.orderToDispute orderId)).status = .Cancelled)
    (hamt : 0 < (m.orders orderId).amount) :
    (raiseDispute d m sender value orderId reason evidenceHash ts).isOk = true ↔
      ((m.orders orderId).status = .Funded ∧
        (sender = (m.orders orderId).seller ∨ sender = (m.orders orderId).buyer)) := by
  constructor
  · intro hok
    obtain ⟨d', hd'⟩ := isOk_exists hok
    obtain ⟨_, _, _, hst, hpart, _, _, _, _, _, _, _⟩ := raiseDispute_ok hd'
    exact ⟨hst, hpart⟩
  · rintro ⟨hst, hpart⟩
    simp only [raiseDispute]
    rw [if_neg (show ¬ value < d.disputeFee by omega), if_neg hr, if_neg he,
      if_neg (show ¬ (m.orders orderId).status ≠ OrderStatus.Funded from
        not_not.mpr hst),
      if_neg (show ¬ (sender ≠ (m.orders orderId).seller ∧
        sender ≠ (m.orders orderId).buyer) by tauto),
      if_neg (show ¬ (d.orderToDispute orderId ≠ 0 ∧
        (d.disputes (d.orderToDispute orderId)).status ≠ DisputeStatus.Cancelled)
        by tauto),
      if_neg (show ¬ (m.orders orderId).amount = 0 by omega)]
    rfl

/-- C6 witness: the precondition theorem applied to the concrete funded
order 0, disputed by its seller. -/
theorem c6_raise_precondition_witness :
    (raiseDispute dA mC 2 initialDisputeFee 0 "x" "y" 7).isOk = true :=
  (c6_raise_precondition (by decide) (by decide) (by decide) (by decide)
    (by decide)).mpr (by decide)

/-- C6 counterexample: order 0 is Confirmed, the caller is its buyer,
every side condition holds, yet `raiseDispute` fails — a Confirmed order
cannot be disputed. -/
theorem c6_raise_precondition_counterexample :
    (mConf.orders 0).status = .Confirmed ∧
    (3 : Nat) = (mConf.orders 0).buyer ∧
    dA.disputeFee ≤ initialDisputeFee ∧
    (dA.orderToDispute 0 = 0 ∨
      (dA.disputes (dA.orderToDispute 0)).status = .Cancelled) ∧
    0 < (mConf.orders 0).amount ∧
    (raiseDispute dA mConf 3 initialDisputeFee 0 "late delivery" "QmLate" 9).isOk
      = false := by decide

/-- C7: the score produced by the sole score-changing routine
(`_updateReputation`, here `updateReputationState` built on
`updateScore`) always lies in [-100, 1000], both after a single update
from any starting score and after any non-empty sequence of updates (or
any sequence from an in-range start). -/
theorem c7_reputation_clamped :
    (∀ (s : MState) (user : Nat) (change : Int),
      -100 ≤ ((updateReputationState s user change).reputations user).score ∧
      ((updateReputationState s user change).reputations user).score ≤ 1000) ∧
    (∀ (start : Int) (cs : List Int),
      ((-100 ≤ start ∧ start ≤ 1000) ∨ cs ≠ []) →
      -100 ≤ cs.foldl updateScore start ∧ cs.foldl updateScore start ≤ 1000) := by
  constructor
  · intro s user change
    simp only [updateReputationState, setRep]
    simpa using updateScore_bounds (s.reputations user).score change
  · rintro start cs (⟨h1, h2⟩ | hne)
    · exact updateScore_foldl_bounds cs start h1 h2
    · cases cs with
      | nil => exact absurd rfl hne
      | cons c tl =>
        simp only [List.foldl]
        exact updateScore_foldl_bounds tl (updateScore start c)
          (updateScore_bounds start c).1 (updateScore_bounds start c).2

/-- C7 witness: two huge penalties followed by a huge credit stay
clamped in [-100, 1000]. -/
theorem c7_reputation_clamped_witness :
    -100 ≤ [(-1000 : Int), -1000, 5000].foldl updateScore 0 ∧
    [(-1000 : Int), -1000, 5000].foldl updateScore 0 ≤ 1000 :=
  c7_reputation_clamped.2 0 [-1000, -1000, 5000] (Or.inr (by decide))

/-- C8: for amount 1000000 and the default 250 basis points,
`confirmReceipt` pays the seller exactly 975000 and the fee recipient
exactly 25000 (integer truncation); `setPlatformFee` succeeds exactly
for the owner with a new fee of at most 1000 basis points. -/
theorem c8_fee_exactness :
    m8c.paidOut 2 = 975000 ∧ m8c.paidOut 9 = 25000 ∧
    m8b.platformFeePercent = 250 ∧ (m8b.orders 0).amount = 1000000 ∧
    (∀ (s : MState) (sender newFeePercent : Nat),
      (setPlatformFee s sender newFeePercent).isOk = true ↔
        (sender = s.owner ∧ newFeePercent ≤ 1000)) := by
  refine ⟨by decide, by decide, by decide, by decide, ?_⟩
  intro s sender newFeePercent
  unfold setPlatformFee
  split_ifs with h1 h2
  · simp only [Except.isOk, Except.toBool]
    constructor
    · intro h; cases h
    · rintro ⟨ho, _⟩; exact absurd ho h1
  · simp only [Except.isOk, Except.toBool]
    constructor
    · intro h; cases h
    · rintro ⟨_, hf⟩; omega
  · simp only [Except.isOk, Except.toBool]
    exact iff_of_true trivial ⟨not_not.mp h1, by omega⟩

/-- C8 witness: the owner setting a 5 percent fee succeeds. -/
theorem c8_fee_exactness_witness : (setPlatformFee mA 1 500).isOk = true :=
  (c8_fee_exactness.2.2.2.2 mA 1 500).mpr (by decide)

/-- C9: for a caller with `totalOrders = 0`, `createOrder` first
overwrites the caller's score with INITIAL_REPUTATION = 50 and then
passes the eligibility gate, whatever the previous score was; and
`penalizeReputation` increments `failedOrders` but never `totalOrders`,
so a penalty on an address that never completed an order is erased by
its next `createOrder`. -/
theorem c9_reputation_reset :
    (∀ (s : MState) (sender value : Nat) (description : String) (ts : Nat),
      (s.reputations sender).totalOrders = 0 → value ≠ 0 → description ≠ "" →
      ∃ s', createOrder s sender value description ts = .ok s' ∧
        (s'.reputations sender).score = INITIAL_REPUTATION) ∧
    (∀ (s s' : MState) (sender user : Nat) (penalty : Int) (reason : String),
      penalizeReputation s sender user penalty reason = .ok s' →
      (s'.reputations user).totalOrders = (s.reputations user).totalOrders) := by
  constructor
  · intro s sender value description ts h0 hv hd
    simp only [createOrder]
    rw [if_pos h0]
    have hscore : ((setRep s sender
        { s.reputations sender with score := INITIAL_REPUTATION }).reputations
          sender).score = INITIAL_REPUTATION := by simp [setRep]
    rw [if_neg (by rw [hscore]; norm_num [INITIAL_REPUTATION,
          MINIMUM_SELLER_REPUTATION]),
        if_neg hv, if_neg hd]
    exact ⟨_, rfl, by simp [setRep]⟩
  · intro s s' sender user penalty reason h
    exact (penalizeReputation_ok h).2.2.2.2

/-- C9 witness: address 2 is penalized to score -100 with
`totalOrders = 0`; its next `createOrder` nevertheless succeeds. -/
theorem c9_reputation_reset_witness :
    (createOrder mPen 2 5 "x" 9).isOk = true ∧
    (mPen.reputations 2).score = -100 ∧ (mPen.reputations 2).totalOrders = 0 := by
  refine ⟨?_, by decide, by decide⟩
  obtain ⟨s', hs', _⟩ :=
    c9_reputation_reset.1 mPen 2 5 "x" 9 (by decide) (by decide) (by decide)
  rw [hs']
  rfl

/-- C10: for an order slot holding the all-zero default record (no order
was ever created or funded there), `fundOrder` with payment 0 from any
non-zero caller succeeds: the default record passes every guard, and the
nonexistent order becomes Funded with the caller as buyer. -/
theorem c10_fund_nonexistent {s : MState} {caller orderId ts : Nat}
    (hdef : s.orders orderId = defaultOrder) (hc : caller ≠ 0) :
    ∃ s', fundOrder s caller 0 orderId ts = .ok s' ∧
      (s'.orders orderId).status = .Funded ∧ (s'.orders orderId).buyer = caller := by
  simp only [fundOrder]
  rw [hdef]
  rw [if_neg (by decide), if_neg (by decide),
      if_neg (by simpa [defaultOrder] using hc)]
  exact ⟨_, rfl, by simp, by simp⟩

/-- C10 witness: funding the never-created order 77 of the fresh
marketplace with payment 0 succeeds. -/
theorem c10_fund_nonexistent_witness : (fundOrder mA 3 0 77 5).isOk = true := by
  obtain ⟨s', hs', _, _⟩ :=
    @c10_fund_nonexistent mA 3 77 5 (by decide) (by decide)
  rw [hs']
  rfl

end ZKM
